import Mathlib

/-!
Formal model of `src/cli/visualize_graph.py`: a generator that turns a
navigation-graph JSON document (rooms and door connections of the Super
Metroid map) into a single self-contained interactive HTML page.

The data transform (`build_html`) and the pure logic of the embedded canvas
renderer (coordinate transforms, wheel zoom, hover hit-testing, per-edge
style and opacity) are embedded as executable Lean functions.  JSON numbers
of the input are integers (`ℤ`); renderer arithmetic (camera, zoom,
distances), which JavaScript performs on floats, is modelled exactly over
`ℚ`.
-/

set_option maxRecDepth 4000

namespace SMGraph

/-- Python `html.escape(s)` with the default `quote=True`: replaces `&`,
`<`, `>`, the double quote and the single quote.  The source applies the
replacements sequentially starting with `&`, which is equivalent to this
character-wise map (no replacement output contains a character that a later
pass would rewrite). -/
def escChar (c : Char) : String :=
  if c = '&' then "&amp;"
  else if c = '<' then "&lt;"
  else if c = '>' then "&gt;"
  else if c = '"' then "&quot;"
  else if c = '\'' then "&#x27;"
  else String.singleton c

def htmlEscape (s : String) : String :=
  String.join (s.toList.map escChar)

/-- The `DOOR_CAP_COLORS` dict: categorical cap color → display color. -/
def DOOR_CAP_COLORS : String → Option String
  | "blue" => some "#3880D0"
  | "red" => some "#D05050"
  | "green" => some "#40C048"
  | "yellow" => some "#D8C830"
  | "grey" => some "#808088"
  | _ => none

/-- The `AREA_COLORS` dict: area name → display color. -/
def AREA_COLORS : String → Option String
  | "Crateria" => some "#4488cc"
  | "Brinstar" => some "#44aa44"
  | "Norfair" => some "#cc4422"
  | "Wrecked Ship" => some "#7766aa"
  | "Maridia" => some "#2299bb"
  | "Tourian" => some "#cc9922"
  | "Ceres" => some "#888888"
  | _ => none

/-- A record of the input `nodes` array
(`{roomId, name, areaName, roomIdHex, mapX, mapY, widthScreens, heightScreens}`). -/
structure RawNode where
  roomId : ℤ
  name : String
  areaName : String
  roomIdHex : String
  mapX : ℤ
  mapY : ℤ
  widthScreens : ℤ
  heightScreens : ℤ
  deriving DecidableEq, Repr

/-- A record of the input `edges` array
(`{fromRoomId, toRoomId, toRoomIdHex, direction, doorCapColor, requiredAbility, isElevator}`). -/
structure RawEdge where
  fromRoomId : ℤ
  toRoomId : ℤ
  toRoomIdHex : String
  direction : String
  doorCapColor : Option String
  requiredAbility : Option String
  isElevator : Bool
  deriving DecidableEq, Repr

/-- Python truthiness of a nullable string field (`if e["doorCapColor"]:`):
`None` and the empty string are falsy, every other string is truthy. -/
def capTruthy : Option String → Bool
  | none => false
  | some s => !(s == "")

/-- `node_by_id = {n["roomId"]: n for n in nodes}`: a later node with the same
`roomId` overwrites an earlier one (Python dict-comprehension semantics). -/
def node_by_id (nodes : List RawNode) (rid : ℤ) : Option RawNode :=
  nodes.foldl (fun acc n => if n.roomId = rid then some n else acc) none

/-- One element of the per-room adjacency list `adj[fid]` (`to` in the
source; renamed `toName` since `to` is a Lean keyword). -/
structure Conn where
  toName : String
  dir : String
  cap : Option String
  ability : Option String
  elevator : Bool
  deriving DecidableEq, Repr

/-- One adjacency entry built from an edge: the destination name falls back
to the raw hex id `toRoomIdHex` when the destination room id does not
resolve. -/
def mkConn (nodes : List RawNode) (e : RawEdge) : Conn :=
  { toName := match node_by_id nodes e.toRoomId with
          | some n => n.name
          | none => e.toRoomIdHex
    dir := e.direction
    cap := e.doorCapColor
    ability := e.requiredAbility
    elevator := e.isElevator }

/-- `adj.get(n["roomId"], [])`: the connections whose `fromRoomId` is `rid`,
in edge order (`setdefault`/`append` preserve the iteration order). -/
def connectionsOf (nodes : List RawNode) (edges : List RawEdge) (rid : ℤ) : List Conn :=
  (edges.filter (fun e => e.fromRoomId == rid)).map (mkConn nodes)

/-- The colored cap tag appended to a connection line
(`cap_str` in the source), present only when the cap is truthy; an unknown
cap string falls back to color `"#fff"` here. -/
def connCapStr (c : Conn) : String :=
  if capTruthy c.cap then
    " <span style=\"color:" ++ (DOOR_CAP_COLORS (c.cap.getD "")).getD "#fff"
      ++ ";font-weight:bold\">[" ++ c.cap.getD "" ++ "]</span>"
  else ""

/-- One tooltip connection line: `{dir} → {escape(to)}{cap_str}{elev}`. -/
def connLine (c : Conn) : String :=
  c.dir ++ " → " ++ htmlEscape c.toName ++ connCapStr c
    ++ (if c.elevator then " (elevator)" else "")

/-- The concatenated header f-strings of the tooltip expression: escaped
name, escaped area, hex id, map coordinates, footprint, and the `<hr>`
separator. -/
def tooltipHeader (n : RawNode) : String :=
  "<b>" ++ htmlEscape n.name ++ "</b><br>"
    ++ htmlEscape n.areaName ++ " | " ++ n.roomIdHex ++ "<br>"
    ++ "Map: (" ++ toString n.mapX ++ ", " ++ toString n.mapY ++ ") | Size: "
    ++ toString n.widthScreens ++ "x" ++ toString n.heightScreens ++ "<br>"
    ++ "<hr style=\"margin:4px 0\">"

/-- The `tooltip` expression of the source.  The Python conditional
expression has lower precedence than `+`, so
`header + "<br>".join(parts) if conn_html_parts else "No doors"` parses as
`(header + join) if conn_html_parts else "No doors"`: a room with no
outgoing connections gets the bare string `"No doors"` and no header. -/
def tooltipOf (nodes : List RawNode) (edges : List RawEdge) (n : RawNode) : String :=
  let parts := (connectionsOf nodes edges n.roomId).map connLine
  if parts.isEmpty then "No doors"
  else tooltipHeader n ++ String.intercalate "<br>" parts

/-- One element of the serialized `js_nodes` list. -/
structure JsNode where
  id : ℤ
  label : String
  area : String
  color : String
  x : ℤ
  y : ℤ
  w : ℤ
  h : ℤ
  hex : String
  tooltip : String
  deriving DecidableEq, Repr

/-- The room descriptor appended to `js_nodes` for input node `n`. -/
def mkJsNode (nodes : List RawNode) (edges : List RawEdge) (n : RawNode) : JsNode :=
  { id := n.roomId
    label := n.name
    area := n.areaName
    color := (AREA_COLORS n.areaName).getD "#888"
    x := n.mapX * 40
    y := n.mapY * 40
    w := n.widthScreens
    h := n.heightScreens
    hex := n.roomIdHex
    tooltip := tooltipOf nodes edges n }

def jsNodesOf (nodes : List RawNode) (edges : List RawEdge) : List JsNode :=
  nodes.map (mkJsNode nodes edges)

/-- The color/width computation of the `js_edges` loop:
start from `("#555", 1)`; a truthy cap sets the cap color (unknown caps fall
back to `"#888"`) and width 2; `isElevator` then overwrites the width with 3. -/
def edgeStyle (e : RawEdge) : String × ℤ :=
  let color := "#555"
  let width : ℤ := 1
  let capped : String × ℤ :=
    if capTruthy e.doorCapColor then
      ((DOOR_CAP_COLORS (e.doorCapColor.getD "")).getD "#888", 2)
    else (color, width)
  let finalWidth : ℤ := if e.isElevator then 3 else capped.2
  (capped.1, finalWidth)

/-- One element of the serialized `js_edges` list (`from`/`to` in the
source; renamed `fromId`/`toId` since `from` is a Lean keyword). -/
structure JsEdge where
  fromId : ℤ
  toId : ℤ
  color : String
  width : ℤ
  cap : Option String
  dir : String
  deriving DecidableEq, Repr

def mkJsEdge (e : RawEdge) : JsEdge :=
  { fromId := e.fromRoomId
    toId := e.toRoomId
    color := (edgeStyle e).1
    width := (edgeStyle e).2
    cap := e.doorCapColor
    dir := e.direction }

def jsEdgesOf (edges : List RawEdge) : List JsEdge := edges.map mkJsEdge

/-! ### JSON serialization (`json.dumps` with default separators) -/

def hexDigit (n : Nat) : Char :=
  if n < 10 then Char.ofNat (48 + n) else Char.ofNat (87 + n)

/-- `json.dumps` string escaping (default `ensure_ascii=True`): backslash,
quote, the common control escapes, other control characters and non-ASCII
code points as `\uXXXX` (code points above the BMP, which Python encodes as
surrogate pairs, do not occur in this data and are left as a single
`\uXXXX`). -/
def jsonEscapeChar (c : Char) : String :=
  if c = '"' then "\\\""
  else if c = '\\' then "\\\\"
  else if c = '\n' then "\\n"
  else if c = '\r' then "\\r"
  else if c = '\t' then "\\t"
  else if c.toNat < 32 ∨ 126 < c.toNat then
    "\\u" ++ String.mk [hexDigit (c.toNat / 4096 % 16), hexDigit (c.toNat / 256 % 16),
      hexDigit (c.toNat / 16 % 16), hexDigit (c.toNat % 16)]
  else String.singleton c

def jsonQuote (s : String) : String :=
  "\"" ++ String.join (s.toList.map jsonEscapeChar) ++ "\""

def jsonOfOptStr : Option String → String
  | none => "null"
  | some s => jsonQuote s

def jsonOfJsNode (n : JsNode) : String :=
  "\x7b\"id\": " ++ toString n.id
    ++ ", \"label\": " ++ jsonQuote n.label
    ++ ", \"area\": " ++ jsonQuote n.area
    ++ ", \"color\": " ++ jsonQuote n.color
    ++ ", \"x\": " ++ toString n.x
    ++ ", \"y\": " ++ toString n.y
    ++ ", \"w\": " ++ toString n.w
    ++ ", \"h\": " ++ toString n.h
    ++ ", \"hex\": " ++ jsonQuote n.hex
    ++ ", \"tooltip\": " ++ jsonQuote n.tooltip
    ++ "\x7d"

def jsonOfJsNodes (ns : List JsNode) : String :=
  "[" ++ String.intercalate ", " (ns.map jsonOfJsNode) ++ "]"

def jsonOfJsEdge (e : JsEdge) : String :=
  "\x7b\"from\": " ++ toString e.fromId
    ++ ", \"to\": " ++ toString e.toId
    ++ ", \"color\": " ++ jsonQuote e.color
    ++ ", \"width\": " ++ toString e.width
    ++ ", \"cap\": " ++ jsonOfOptStr e.cap
    ++ ", \"dir\": " ++ jsonQuote e.dir
    ++ "\x7d"

def jsonOfJsEdges (es : List JsEdge) : String :=
  "[" ++ String.intercalate ", " (es.map jsonOfJsEdge) ++ "]"

/-- `json.dumps(AREA_COLORS)` — constant. -/
def areasJson : String :=
  "\x7b\"Crateria\": \"#4488cc\", \"Brinstar\": \"#44aa44\", \"Norfair\": \"#cc4422\", "
    ++ "\"Wrecked Ship\": \"#7766aa\", \"Maridia\": \"#2299bb\", \"Tourian\": \"#cc9922\", "
    ++ "\"Ceres\": \"#888888\"\x7d"

/-- Constant template text before the nodes blob.  The real template is a
few hundred lines of fixed CSS/markup/JS with no input data in it; only the
fact that it is constant matters to the generator, so the constant runs are
abbreviated here. -/
def htmlHead : String := "<!DOCTYPE html>\n<html>\n<head>...</head>\n<body>...<script>\nconst NODES = "

def htmlMid1 : String := ";\nconst EDGES = "

def htmlMid2 : String := ";\nconst AREA_COLORS = "

def htmlTail : String := ";\n...\n</script>\n</body>\n</html>"

/-- The full HTML document returned by `build_html` given the parsed
`nodes`/`edges` arrays. -/
def buildHtmlDoc (nodes : List RawNode) (edges : List RawEdge) : String :=
  htmlHead ++ jsonOfJsNodes (jsNodesOf nodes edges) ++ htmlMid1
    ++ jsonOfJsEdges (jsEdgesOf edges) ++ htmlMid2 ++ areasJson ++ htmlTail

/-- The three data products of one generation run: the `nodes_json` blob,
the `edges_json` blob, and the full HTML document. -/
def buildOutput (nodes : List RawNode) (edges : List RawEdge) : String × String × String :=
  (jsonOfJsNodes (jsNodesOf nodes edges), jsonOfJsEdges (jsEdgesOf edges),
    buildHtmlDoc nodes edges)

/-! ### Loading and the command-line entry point -/

/-- The outcome of `open(graph_path)` + `json.load(f)` at the start of
`build_html`: the file may be missing, its contents may not parse as JSON,
or it parses to a document whose top-level `nodes`/`edges` keys may each be
present or absent. -/
inductive LoadResult where
  | missingFile
  | invalidJson
  | doc (nodesField : Option (List RawNode)) (edgesField : Option (List RawEdge))
  deriving DecidableEq

/-- The Python exceptions that escape `build_html` before it returns. -/
inductive BuildError where
  | fileNotFoundError
  | jsonDecodeError
  | keyError (key : String)
  deriving DecidableEq, Repr

/-- `build_html`: a missing file raises `FileNotFoundError`, unparsable
contents raise `json.JSONDecodeError`, `data["nodes"]` / `data["edges"]`
raise `KeyError` when absent; otherwise the HTML document is produced. -/
def build_html : LoadResult → Except BuildError String
  | .missingFile => .error .fileNotFoundError
  | .invalidJson => .error .jsonDecodeError
  | .doc none _ => .error (.keyError "nodes")
  | .doc (some _) none => .error (.keyError "edges")
  | .doc (some ns) (some es) => .ok (buildHtmlDoc ns es)

/-- `main`: call `build_html`, then open the output path and write the
document.  Result: the list of `(path, contents)` writes performed and the
process exit status (an uncaught Python exception terminates the
interpreter with status 1, printing a traceback diagnostic).  The output
file is opened only after `build_html` has returned successfully. -/
def main (input : LoadResult) (outputPath : String) : List (String × String) × Nat :=
  match build_html input with
  | .error _ => ([], 1)
  | .ok h => ([(outputPath, h)], 0)

/-! ### The embedded renderer's pure logic -/

/-- The mutable camera/zoom state of the embedded renderer
(`camX`, `camY`, `zoom`). -/
structure ViewState where
  camX : ℚ
  camY : ℚ
  zoom : ℚ
  deriving DecidableEq, Repr

/-- `worldToScreen(wx, wy)` for canvas size `cw × ch`. -/
def worldToScreen (s : ViewState) (cw ch wx wy : ℚ) : ℚ × ℚ :=
  ((wx - s.camX) * s.zoom + cw / 2, (wy - s.camY) * s.zoom + ch / 2)

/-- `screenToWorld(sx, sy)` for canvas size `cw × ch`. -/
def screenToWorld (s : ViewState) (cw ch sx sy : ℚ) : ℚ × ℚ :=
  ((sx - cw / 2) / s.zoom + s.camX, (sy - ch / 2) / s.zoom + s.camY)

/-- `nodeRadius(n) = Math.max(4, Math.min(n.w, n.h) * 2 + 3)`. -/
def nodeRadius (n : JsNode) : ℚ :=
  max 4 (min (n.w : ℚ) (n.h : ℚ) * 2 + 3)

/-- The `wheel` handler: pick the factor from the scroll direction, record
the world point under the pointer, scale and clamp the zoom to
`[0.1, 20]`, then recompute the camera so that the recorded world point
stays under the pointer. -/
def wheelHandler (s : ViewState) (cw ch clientX clientY deltaY : ℚ) : ViewState :=
  let factor : ℚ := if 0 < deltaY then 9 / 10 else 11 / 10
  let wx := (screenToWorld s cw ch clientX clientY).1
  let wy := (screenToWorld s cw ch clientX clientY).2
  let z : ℚ := max (1 / 10) (min (s.zoom * factor) 20)
  { camX := wx - (clientX - cw / 2) / z
    camY := wy - (clientY - ch / 2) / z
    zoom := z }

/-- The JS `nodeById` map (`NODES.forEach(n => nodeById[n.id] = n)`):
last assignment wins. -/
def nodeByIdJs (ns : List JsNode) (rid : ℤ) : Option JsNode :=
  ns.foldl (fun acc n => if n.id = rid then some n else acc) none

/-- Whether the `draw` loop reaches the `ctx.stroke()` call for edge `e`:
both endpoint ids must resolve in `nodeById`, at least one endpoint area
must be visible, and the segment's bounding box must meet the viewport
extended by the 50-pixel margin. -/
def edgeRendered (ns : List JsNode) (areaVisible : String → Bool) (s : ViewState)
    (cw ch : ℚ) (e : JsEdge) : Bool :=
  match nodeByIdJs ns e.fromId, nodeByIdJs ns e.toId with
  | some fromN, some toN =>
    if !(areaVisible fromN.area) && !(areaVisible toN.area) then false
    else
      let p1 := worldToScreen s cw ch (fromN.x : ℚ) (fromN.y : ℚ)
      let p2 := worldToScreen s cw ch (toN.x : ℚ) (toN.y : ℚ)
      let margin : ℚ := 50
      if decide (max p1.1 p2.1 < -margin) || decide (cw + margin < min p1.1 p2.1) then false
      else if decide (max p1.2 p2.2 < -margin) || decide (ch + margin < min p1.2 p2.2) then false
      else true
  | _, _ => false

/-- Whether edge `e` touches the hovered room
(`hoveredNode && (e.from === hoveredNode.id || e.to === hoveredNode.id)`). -/
def isHoverEdge (hoveredNode : Option ℤ) (e : JsEdge) : Bool :=
  match hoveredNode with
  | some hid => e.fromId == hid || e.toId == hid
  | none => false

/-- The `ctx.globalAlpha` assigned to an edge in `draw`, given the resolved
endpoint nodes: `dimmed ? 0.15 : (highlighted || highlightedNodes.size === 0
? 0.5 : 0.08)`, then halved for cap-less (`cap === null`) non-hovered
edges. -/
def edgeAlpha (areaVisible : String → Bool) (highlightedNodes : Finset ℤ)
    (hoveredNode : Option ℤ) (fromN toN : JsNode) (e : JsEdge) : ℚ :=
  let dimmed := !(areaVisible fromN.area) || !(areaVisible toN.area)
  let highlighted := decide (0 < highlightedNodes.card)
    && (decide (e.fromId ∈ highlightedNodes) || decide (e.toId ∈ highlightedNodes))
  let a : ℚ :=
    if dimmed then 15 / 100
    else if highlighted || decide (highlightedNodes.card = 0) then 1 / 2
    else 8 / 100
  if e.cap.isNone && !(isHoverEdge hoveredNode e) then a * (1 / 2) else a

/-- Squared world-space distance from the pointer to a node's centre.  The
source compares `Math.sqrt(dx*dx + dy*dy) < hitRadius`; comparing squares is
equivalent whenever the radius is nonnegative, which holds for every
`0 < zoom` (then `hitRadius ≥ 4`). -/
def distSq (n : JsNode) (wx wy : ℚ) : ℚ :=
  ((n.x : ℚ) - wx) ^ 2 + ((n.y : ℚ) - wy) ^ 2

/-- `hitRadius = nodeRadius(n) + 8 / zoom`. -/
def hitRadius (zoom : ℚ) (n : JsNode) : ℚ := nodeRadius n + 8 / zoom

/-- One iteration of the hover-search loop in the `mousemove` handler: a
visible node strictly inside its hit radius and strictly closer than the
best so far becomes the new best (`none` as second component stands for the
initial `Infinity`). -/
def hitStep (areaVisible : String → Bool) (zoom wx wy : ℚ)
    (acc : Option JsNode × Option ℚ) (n : JsNode) : Option JsNode × Option ℚ :=
  if areaVisible n.area
      && decide (distSq n wx wy < hitRadius zoom n ^ 2)
      && (match acc.2 with
          | none => true
          | some best => decide (distSq n wx wy < best)) then
    (some n, some (distSq n wx wy))
  else acc

/-- The hover target computed by the (non-dragging) `mousemove` handler for
pointer world position `(wx, wy)`. -/
def mousemoveHit (areaVisible : String → Bool) (zoom wx wy : ℚ)
    (ns : List JsNode) : Option JsNode :=
  (ns.foldl (hitStep areaVisible zoom wx wy) (none, none)).1

/-- The full hover computation: convert the client position to world space
with the current view state, then run the hover search. -/
def mousemoveHover (areaVisible : String → Bool) (s : ViewState)
    (cw ch clientX clientY : ℚ) (ns : List JsNode) : Option JsNode :=
  mousemoveHit areaVisible s.zoom (screenToWorld s cw ch clientX clientY).1
    (screenToWorld s cw ch clientX clientY).2 ns

/-! ### Concrete inputs used by witnesses and counterexamples -/

def landingSiteNode : RawNode :=
  { roomId := 1, name := "Landing Site", areaName := "Crateria",
    roomIdHex := "0x91F8", mapX := 4, mapY := 0, widthScreens := 9, heightScreens := 5 }

def emptyCapEdge : RawEdge :=
  { fromRoomId := 1, toRoomId := 2, toRoomIdHex := "0x92FD", direction := "right",
    doorCapColor := some "", requiredAbility := none, isElevator := false }

def blueCapEdge : RawEdge :=
  { fromRoomId := 3, toRoomId := 4, toRoomIdHex := "0x93AA", direction := "left",
    doorCapColor := some "blue", requiredAbility := none, isElevator := false }

def purpleElevatorEdge : RawEdge :=
  { fromRoomId := 5, toRoomId := 6, toRoomIdHex := "0x94BB", direction := "up",
    doorCapColor := some "purple", requiredAbility := none, isElevator := true }

def purpleDoorEdge : RawEdge :=
  { fromRoomId := 5, toRoomId := 6, toRoomIdHex := "0x94BB", direction := "up",
    doorCapColor := some "purple", requiredAbility := none, isElevator := false }

def orphanEdge : RawEdge :=
  { fromRoomId := 7, toRoomId := 99, toRoomIdHex := "0xDEAD", direction := "down",
    doorCapColor := none, requiredAbility := none, isElevator := false }

def nodeDupA : JsNode :=
  { id := 1, label := "A", area := "Crateria", color := "#4488cc",
    x := 0, y := 0, w := 1, h := 1, hex := "0x1", tooltip := "" }

def nodeDupB : JsNode :=
  { id := 2, label := "B", area := "Crateria", color := "#4488cc",
    x := 0, y := 0, w := 1, h := 1, hex := "0x2", tooltip := "" }

def nodeSolo : JsNode :=
  { id := 3, label := "C", area := "Crateria", color := "#4488cc",
    x := 80, y := 40, w := 2, h := 2, hex := "0x3", tooltip := "" }

def jsLanding : JsNode :=
  { id := 1, label := "Landing Site", area := "Crateria", color := "#4488cc",
    x := 160, y := 0, w := 9, h := 5, hex := "0x91F8", tooltip := "" }

def jsParlor : JsNode :=
  { id := 2, label := "Parlor", area := "Crateria", color := "#4488cc",
    x := 200, y := 0, w := 5, h := 2, hex := "0x92FD", tooltip := "" }

def jsBlueEdge : JsEdge :=
  { fromId := 1, toId := 2, color := "#3880D0", width := 2,
    cap := some "blue", dir := "right" }

def jsCaplessEdge : JsEdge :=
  { fromId := 1, toId := 2, color := "#555", width := 1,
    cap := none, dir := "right" }

/-! ### Claim theorems -/

/-- C1: the tooltip of a room is claimed to contain the escaped name/area,
hex id, coordinates, footprint and separator whether or not the room has
outgoing connections, with `"No doors"` only after the separator.  The code
disagrees: the Python conditional expression captures the whole
concatenation, so a room without outgoing connections gets the bare string
`"No doors"` and the header is dropped entirely. -/
theorem c1_tooltip_drops_header :
    tooltipOf [landingSiteNode] [] landingSiteNode = "No doors"
      ∧ tooltipOf [landingSiteNode] [] landingSiteNode
          ≠ tooltipHeader landingSiteNode ++ "No doors" := by
  constructor
  · rfl
  · decide

/-- C2: for an edge whose destination id resolves to no node, the adjacency
entry for the source room falls back to the raw `toRoomIdHex` as the
destination name, the edge is still serialized into `js_edges` with its
endpoint ids intact, and the embedded renderer's `draw` skips any edge one
of whose endpoint ids is absent from `nodeById`. -/
theorem c2_unresolved_destination (nodes : List RawNode) (edges : List RawEdge)
    (e : RawEdge) (he : e ∈ edges) (hmiss : node_by_id nodes e.toRoomId = none) :
    (mkConn nodes e).toName = e.toRoomIdHex
      ∧ mkConn nodes e ∈ connectionsOf nodes edges e.fromRoomId
      ∧ mkJsEdge e ∈ jsEdgesOf edges
      ∧ (mkJsEdge e).fromId = e.fromRoomId ∧ (mkJsEdge e).toId = e.toRoomId
      ∧ (∀ (ns : List JsNode) (vis : String → Bool) (s : ViewState) (cw ch : ℚ),
          nodeByIdJs ns e.fromRoomId = none ∨ nodeByIdJs ns e.toRoomId = none →
          edgeRendered ns vis s cw ch (mkJsEdge e) = false) := by
  refine ⟨by simp [mkConn, hmiss], ?_, List.mem_map_of_mem mkJsEdge he, rfl, rfl, ?_⟩
  · exact List.mem_map_of_mem (mkConn nodes) (List.mem_filter.mpr ⟨he, by simp⟩)
  · intro ns vis s cw ch h
    have hf : (mkJsEdge e).fromId = e.fromRoomId := rfl
    have ht : (mkJsEdge e).toId = e.toRoomId := rfl
    rcases h with h | h <;>
      cases hfrom : nodeByIdJs ns e.fromRoomId <;>
        cases hto : nodeByIdJs ns e.toRoomId <;>
          simp_all [edgeRendered, hf, ht]

/-- C2 witness: a concrete edge into an unknown room id with an empty node
table. -/
theorem c2_witness :
    (mkConn [] orphanEdge).toName = orphanEdge.toRoomIdHex
      ∧ mkConn [] orphanEdge ∈ connectionsOf [] [orphanEdge] orphanEdge.fromRoomId
      ∧ mkJsEdge orphanEdge ∈ jsEdgesOf [orphanEdge]
      ∧ (mkJsEdge orphanEdge).fromId = orphanEdge.fromRoomId
      ∧ (mkJsEdge orphanEdge).toId = orphanEdge.toRoomId
      ∧ (∀ (ns : List JsNode) (vis : String → Bool) (s : ViewState) (cw ch : ℚ),
          nodeByIdJs ns orphanEdge.fromRoomId = none
            ∨ nodeByIdJs ns orphanEdge.toRoomId = none →
          edgeRendered ns vis s cw ch (mkJsEdge orphanEdge) = false) :=
  c2_unresolved_destination [] [orphanEdge] orphanEdge (by simp) rfl

/-- Helper for C3: with pairwise-distinct room ids, filtering the node list
by one of its room ids yields exactly that node. -/
theorem filter_roomId_eq_singleton (nodes : List RawNode)
    (hnd : (nodes.map RawNode.roomId).Nodup) (n : RawNode) (hn : n ∈ nodes) :
    nodes.filter (fun m => m.roomId == n.roomId) = [n] := by
  induction nodes with
  | nil => cases hn
  | cons m ms ih =>
    rw [List.map_cons, List.nodup_cons] at hnd
    rcases List.mem_cons.mp hn with rfl | hmem
    · have hms : ms.filter (fun k => k.roomId == n.roomId) = [] := by
        rw [List.filter_eq_nil_iff]
        intro k hk
        simp only [beq_iff_eq]
        intro heq
        exact hnd.1 (heq ▸ List.mem_map_of_mem RawNode.roomId hk)
      simp [List.filter_cons, hms]
    · have hne : m.roomId ≠ n.roomId := by
        intro heq
        exact hnd.1 (heq ▸ List.mem_map_of_mem RawNode.roomId hmem)
      simp [List.filter_cons, hne, ih hnd.2 hmem]

/-- C3: if the room ids of the input nodes are pairwise distinct (the data
model calls `roomId` a unique identifier), each room id maps to exactly one
serialized room descriptor, and its world position is
`(mapX * 40, mapY * 40)`. -/
theorem c3_unique_descriptor (nodes : List RawNode) (edges : List RawEdge)
    (hnd : (nodes.map RawNode.roomId).Nodup) (n : RawNode) (hn : n ∈ nodes) :
    (jsNodesOf nodes edges).filter (fun d => d.id == n.roomId)
        = [mkJsNode nodes edges n]
      ∧ (mkJsNode nodes edges n).x = n.mapX * 40
      ∧ (mkJsNode nodes edges n).y = n.mapY * 40 := by
  refine ⟨?_, rfl, rfl⟩
  have hcomm : (jsNodesOf nodes edges).filter (fun d => d.id == n.roomId)
      = (nodes.filter (fun m => m.roomId == n.roomId)).map (mkJsNode nodes edges) := by
    unfold jsNodesOf
    rw [List.filter_map]
    rfl
  rw [hcomm, filter_roomId_eq_singleton nodes hnd n hn]
  rfl

/-- C3 witness: a one-room input. -/
theorem c3_witness :
    (jsNodesOf [landingSiteNode] []).filter (fun d => d.id == landingSiteNode.roomId)
        = [mkJsNode [landingSiteNode] [] landingSiteNode]
      ∧ (mkJsNode [landingSiteNode] [] landingSiteNode).x = landingSiteNode.mapX * 40
      ∧ (mkJsNode [landingSiteNode] [] landingSiteNode).y = landingSiteNode.mapY * 40 :=
  c3_unique_descriptor [landingSiteNode] [] (by simp) landingSiteNode (by simp)

/-- C4 counterexample: an edge whose `doorCapColor` is present (non-null) —
the empty string — is styled as if no cap were present: color `"#555"` and
width 1, not width 2 with a cap color, because Python
`if e["doorCapColor"]:` is false for the empty string. -/
theorem c4_counterexample :
    emptyCapEdge.doorCapColor = some "" ∧ emptyCapEdge.isElevator = false
      ∧ edgeStyle emptyCapEdge = ("#555", 1)
      ∧ (edgeStyle emptyCapEdge).2 ≠ 2 := by
  decide

/-- C4 (amended): width/color of a serialized door: default gray `"#555"`
and width 1 when the cap is falsy (null or empty) and the edge is not an
elevator; cap color (categorical lookup with fallback `"#888"`) and width 2
for a non-empty cap on a non-elevator edge; width 3 whenever `isElevator`,
overriding the cap-based width. -/
theorem c4_edge_style (e : RawEdge) :
    (capTruthy e.doorCapColor = false → e.isElevator = false →
        edgeStyle e = ("#555", 1))
      ∧ (∀ s, e.doorCapColor = some s → s ≠ "" →
          (edgeStyle e).1 = (DOOR_CAP_COLORS s).getD "#888"
            ∧ (e.isElevator = false → (edgeStyle e).2 = 2))
      ∧ (e.isElevator = true → (edgeStyle e).2 = 3) := by
  refine ⟨?_, ?_, ?_⟩
  · intro hcap helev
    simp [edgeStyle, hcap, helev]
  · intro s hs hne
    have hct : capTruthy (some s) = true := by simp [capTruthy, hne]
    refine ⟨by simp [edgeStyle, hs, hct], ?_⟩
    intro helev
    simp [edgeStyle, hs, hct, helev]
  · intro helev
    simp [edgeStyle, helev]

/-- C4 witness: a blue-capped non-elevator edge gets the blue cap color and
width 2. -/
theorem c4_edge_style_witness :
    (edgeStyle blueCapEdge).1 = (DOOR_CAP_COLORS "blue").getD "#888"
      ∧ (edgeStyle blueCapEdge).2 = 2 :=
  ⟨((c4_edge_style blueCapEdge).2.1 "blue" rfl (by decide)).1,
    ((c4_edge_style blueCapEdge).2.1 "blue" rfl (by decide)).2 rfl⟩

/-- C5: when the input file is missing, is not valid JSON, or lacks the
`nodes` or `edges` key, `main` performs no file write and exits with a
non-zero status: the write of the output path happens only after
`build_html` has fully succeeded. -/
theorem c5_no_partial_output (input : LoadResult) (outputPath : String)
    (h : input = .missingFile ∨ input = .invalidJson
      ∨ (∃ es, input = .doc none es) ∨ (∃ ns, input = .doc (some ns) none)) :
    (main input outputPath).1 = [] ∧ (main input outputPath).2 ≠ 0 := by
  rcases h with h | h | ⟨es, h⟩ | ⟨ns, h⟩ <;> subst h <;> simp [main, build_html]

/-- C5 witness: a missing input file. -/
theorem c5_witness :
    (main .missingFile "sm_nav_graph.html").1 = []
      ∧ (main .missingFile "sm_nav_graph.html").2 ≠ 0 :=
  c5_no_partial_output .missingFile "sm_nav_graph.html" (Or.inl rfl)

/-- C9: the transform is deterministic — two runs on the same parsed input
produce identical node and edge data blobs and an identical HTML document;
the output depends on nothing besides the input (no time, no randomness
appears in the source). -/
theorem c9_deterministic (n₁ n₂ : List RawNode) (e₁ e₂ : List RawEdge)
    (hn : n₁ = n₂) (he : e₁ = e₂) :
    buildOutput n₁ e₁ = buildOutput n₂ e₂
      ∧ buildHtmlDoc n₁ e₁ = buildHtmlDoc n₂ e₂ := by
  subst hn
  subst he
  exact ⟨rfl, rfl⟩

/-- C9 witness: two runs on (syntactically different spellings of) the same
one-room input. -/
theorem c9_witness :
    buildOutput ([landingSiteNode] ++ []) [] = buildOutput [landingSiteNode] []
      ∧ buildHtmlDoc ([landingSiteNode] ++ []) [] = buildHtmlDoc [landingSiteNode] [] :=
  c9_deterministic ([landingSiteNode] ++ []) [landingSiteNode] [] [] (by simp) rfl

/-- C10 counterexample: an elevator edge with the unknown cap `"purple"`
gets serialized width 3, not width 2 as the claim states (the elevator
width overwrites the cap width). -/
theorem c10_counterexample :
    purpleElevatorEdge.doorCapColor = some "purple"
      ∧ DOOR_CAP_COLORS "purple" = none
      ∧ (edgeStyle purpleElevatorEdge).1 = "#888"
      ∧ (edgeStyle purpleElevatorEdge).2 = 3
      ∧ (edgeStyle purpleElevatorEdge).2 ≠ 2 := by
  decide

/-- C10 (amended): for an edge with a non-empty cap string outside the five
known categorical colors the transform still succeeds: the serialized
descriptor gets fallback color `"#888"` and width 2 (width 3 when
`isElevator`), while the tooltip cap tag for that connection uses the other
fallback color `"#fff"`. -/
theorem c10_unknown_cap (e : RawEdge) (s : String) (hs : e.doorCapColor = some s)
    (hne : s ≠ "") (hunk : DOOR_CAP_COLORS s = none) :
    (edgeStyle e).1 = "#888"
      ∧ (e.isElevator = false → (edgeStyle e).2 = 2)
      ∧ (e.isElevator = true → (edgeStyle e).2 = 3)
      ∧ ∀ nodes, connCapStr (mkConn nodes e)
          = " <span style=\"color:#fff;font-weight:bold\">[" ++ s ++ "]</span>" := by
  have hct : capTruthy (some s) = true := by simp [capTruthy, hne]
  refine ⟨by simp [edgeStyle, hs, hct, hunk], ?_, ?_, ?_⟩
  · intro h
    simp [edgeStyle, hs, hct, h]
  · intro h
    simp [edgeStyle, h]
  · intro nodes
    have hcap : (mkConn nodes e).cap = some s := by simp [mkConn, hs]
    have hct2 : capTruthy (mkConn nodes e).cap = true := by simp [capTruthy, hcap, hne]
    rw [connCapStr, if_pos hct2, hcap]
    simp only [Option.getD_some, hunk, Option.getD_none]
    rw [show (" <span style=\"color:" ++ "#fff" ++ ";font-weight:bold\">[" : String)
        = " <span style=\"color:#fff;font-weight:bold\">[" from rfl]

/-- C10 witness: a non-elevator `"purple"`-capped edge. -/
theorem c10_unknown_cap_witness :
    (edgeStyle purpleDoorEdge).1 = "#888"
      ∧ (edgeStyle purpleDoorEdge).2 = 2
      ∧ connCapStr (mkConn [] purpleDoorEdge)
          = " <span style=\"color:#fff;font-weight:bold\">[" ++ "purple" ++ "]</span>" :=
  ⟨(c10_unknown_cap purpleDoorEdge "purple" rfl (by decide) rfl).1,
    (c10_unknown_cap purpleDoorEdge "purple" rfl (by decide) rfl).2.1 rfl,
    (c10_unknown_cap purpleDoorEdge "purple" rfl (by decide) rfl).2.2.2 []⟩

/-- Helper for C6: the camera-recomputation identity. -/
theorem zoom_anchor (a b z c : ℚ) (hz : z ≠ 0) : (a - (a - b / z)) * z + c = b + c := by
  field_simp

/-- C6: the wheel handler multiplies the zoom by 0.9 (scroll down) or 1.1
(scroll up), clamps it to `[0.1, 20]`, and recomputes the camera so that
the world point that was under the pointer before the event maps to the
same screen pixel afterwards — exactly, over `ℚ`, including when the clamp
is active. -/
theorem c6_zoom_to_cursor (s : ViewState) (cw ch clientX clientY deltaY : ℚ) :
    (wheelHandler s cw ch clientX clientY deltaY).zoom
        = max (1 / 10) (min (s.zoom * (if 0 < deltaY then 9 / 10 else 11 / 10)) 20)
      ∧ 1 / 10 ≤ (wheelHandler s cw ch clientX clientY deltaY).zoom
      ∧ (wheelHandler s cw ch clientX clientY deltaY).zoom ≤ 20
      ∧ worldToScreen (wheelHandler s cw ch clientX clientY deltaY) cw ch
          (screenToWorld s cw ch clientX clientY).1
          (screenToWorld s cw ch clientX clientY).2
        = (clientX, clientY) := by
  have hzpos : (0 : ℚ) < max (1 / 10)
      (min (s.zoom * (if 0 < deltaY then (9 : ℚ) / 10 else 11 / 10)) 20) :=
    lt_of_lt_of_le (by norm_num) (le_max_left _ _)
  have hzne : max (1 / 10)
      (min (s.zoom * (if 0 < deltaY then (9 : ℚ) / 10 else 11 / 10)) 20) ≠ 0 :=
    ne_of_gt hzpos
  refine ⟨rfl, le_max_left _ _, max_le (by norm_num) (min_le_right _ _), ?_⟩
  simp only [wheelHandler, worldToScreen, screenToWorld, Prod.mk.injEq]
  constructor
  · rw [zoom_anchor _ _ _ _ hzne]
    ring
  · rw [zoom_anchor _ _ _ _ hzne]
    ring

/-! ### C7 helpers: the hover fold -/

theorem distSq_nonneg (n : JsNode) (wx wy : ℚ) : 0 ≤ distSq n wx wy :=
  add_nonneg (sq_nonneg _) (sq_nonneg _)

theorem distSq_pos (n : JsNode) (wx wy : ℚ)
    (h : ¬((n.x : ℚ) = wx ∧ (n.y : ℚ) = wy)) : 0 < distSq n wx wy := by
  rcases not_and_or.mp h with h1 | h1
  · have hne : ((n.x : ℚ) - wx) ≠ 0 := sub_ne_zero.mpr h1
    have h2 : 0 < ((n.x : ℚ) - wx) ^ 2 :=
      lt_of_le_of_ne (sq_nonneg _) (Ne.symm (pow_ne_zero 2 hne))
    exact lt_of_lt_of_le h2 (le_add_of_nonneg_right (sq_nonneg _))
  · have hne : ((n.y : ℚ) - wy) ≠ 0 := sub_ne_zero.mpr h1
    have h2 : 0 < ((n.y : ℚ) - wy) ^ 2 :=
      lt_of_le_of_ne (sq_nonneg _) (Ne.symm (pow_ne_zero 2 hne))
    exact lt_of_lt_of_le h2 (le_add_of_nonneg_left (sq_nonneg _))

theorem hitRadius_pos (zoom : ℚ) (n : JsNode) (hz : 0 < zoom) :
    0 < hitRadius zoom n := by
  have h4 : (4 : ℚ) ≤ nodeRadius n := le_max_left _ _
  have h8 : (0 : ℚ) < 8 / zoom := div_pos (by norm_num) hz
  unfold hitRadius
  linarith

/-- Once the best distance is 0, no later node can displace it
(`dist < closestDist` is strict). -/
theorem hitFold_keeps (vis : String → Bool) (zoom wx wy : ℚ)
    (l : List JsNode) (r : JsNode) :
    l.foldl (hitStep vis zoom wx wy) (some r, some 0) = (some r, some 0) := by
  induction l with
  | nil => rfl
  | cons n ns ih =>
    rw [List.foldl_cons]
    have hd : decide (distSq n wx wy < (0 : ℚ)) = false := by
      simp [not_lt.mpr (distSq_nonneg n wx wy)]
    have hstep : hitStep vis zoom wx wy (some r, some 0) n = (some r, some 0) := by
      unfold hitStep
      simp [hd]
    rw [hstep, ih]

/-- If every visible node seen so far sits strictly away from the pointer,
the running best distance (when set) is positive. -/
theorem hitFold_posInv (vis : String → Bool) (zoom wx wy : ℚ) :
    ∀ (l : List JsNode) (acc : Option JsNode × Option ℚ),
      (∀ n ∈ l, vis n.area = true → ¬((n.x : ℚ) = wx ∧ (n.y : ℚ) = wy)) →
      (acc.2 = none ∨ ∃ d, acc.2 = some d ∧ 0 < d) →
      ((l.foldl (hitStep vis zoom wx wy) acc).2 = none
        ∨ ∃ d, (l.foldl (hitStep vis zoom wx wy) acc).2 = some d ∧ 0 < d) := by
  intro l
  induction l with
  | nil => intro acc _ hacc; exact hacc
  | cons n ns ih =>
    intro acc hl hacc
    rw [List.foldl_cons]
    apply ih
    · intro m hm hv
      exact hl m (List.mem_cons_of_mem n hm) hv
    · by_cases hcond : (vis n.area
          && decide (distSq n wx wy < hitRadius zoom n ^ 2)
          && (match acc.2 with
              | none => true
              | some best => decide (distSq n wx wy < best))) = true
      · have hvisn : vis n.area = true := by
          have h := hcond
          simp only [Bool.and_eq_true] at h
          exact h.1.1
        have hpos : 0 < distSq n wx wy :=
          distSq_pos n wx wy (hl n (List.mem_cons_self n ns) hvisn)
        right
        refine ⟨distSq n wx wy, ?_, hpos⟩
        unfold hitStep
        rw [if_pos hcond]
      · unfold hitStep
        rw [if_neg hcond]
        exact hacc

/-- If no node is a hit candidate, the fold leaves the accumulator
unchanged. -/
theorem hitFold_id (vis : String → Bool) (zoom wx wy : ℚ) :
    ∀ (ns : List JsNode),
      (∀ n ∈ ns, ¬(vis n.area = true ∧ distSq n wx wy < hitRadius zoom n ^ 2)) →
      ∀ acc, ns.foldl (hitStep vis zoom wx wy) acc = acc := by
  intro ns
  induction ns with
  | nil => intro _ acc; rfl
  | cons n ms ih =>
    intro h acc
    rw [List.foldl_cons]
    have hstep : hitStep vis zoom wx wy acc n = acc := by
      unfold hitStep
      rw [if_neg]
      intro hcond
      simp only [Bool.and_eq_true] at hcond
      exact h n (List.mem_cons_self n ms)
        ⟨hcond.1.1, of_decide_eq_true hcond.1.2⟩
    rw [hstep]
    exact ih (fun m hm => h m (List.mem_cons_of_mem n hm)) acc

/-- Helper for C7, first part: a visible room whose centre is exactly under
the pointer wins the hover search, provided no visible room earlier in the
node list shares that exact position. -/
theorem mousemoveHit_first (vis : String → Bool) (zoom wx wy : ℚ)
    (l₁ l₂ : List JsNode) (r : JsNode) (hz : 0 < zoom)
    (hvis : vis r.area = true) (hx : (r.x : ℚ) = wx) (hy : (r.y : ℚ) = wy)
    (hfirst : ∀ n ∈ l₁, vis n.area = true → ¬((n.x : ℚ) = wx ∧ (n.y : ℚ) = wy)) :
    mousemoveHit vis zoom wx wy (l₁ ++ r :: l₂) = some r := by
  unfold mousemoveHit
  rw [List.foldl_append, List.foldl_cons]
  have hdr : distSq r wx wy = 0 := by
    unfold distSq
    rw [hx, hy]
    ring
  have hinv := hitFold_posInv vis zoom wx wy l₁ (none, none) hfirst (Or.inl rfl)
  have hhit : decide (distSq r wx wy < hitRadius zoom r ^ 2) = true := by
    rw [hdr]
    simp [pow_pos (hitRadius_pos zoom r hz)]
  have hstep : ∀ acc : Option JsNode × Option ℚ,
      (acc.2 = none ∨ ∃ d, acc.2 = some d ∧ 0 < d) →
      hitStep vis zoom wx wy acc r = (some r, some 0) := by
    intro acc hacc
    have hcond : (vis r.area
        && decide (distSq r wx wy < hitRadius zoom r ^ 2)
        && (match acc.2 with
            | none => true
            | some best => decide (distSq r wx wy < best))) = true := by
      rcases hacc with h | ⟨d, hd, hdpos⟩
      · rw [hvis, hhit, h]
        rfl
      · rw [hvis, hhit, hd, hdr]
        simp [hdpos]
    unfold hitStep
    rw [if_pos hcond, hdr]
  rw [hstep (l₁.foldl (hitStep vis zoom wx wy) (none, none)) hinv,
    hitFold_keeps vis zoom wx wy l₂ r]

/-- C7 counterexample: two visible rooms at the same world position, the
pointer exactly at the centre of the second; no visible room is strictly
closer to the pointer than the second room, yet the first room wins the
hover search (strict `dist < closestDist` keeps the earlier node on a
tie). -/
theorem c7_counterexample :
    mousemoveHit (fun _ => true) 1 0 0 [nodeDupA, nodeDupB] = some nodeDupA
      ∧ nodeDupA ≠ nodeDupB
      ∧ (nodeDupB.x : ℚ) = 0 ∧ (nodeDupB.y : ℚ) = 0
      ∧ distSq nodeDupA 0 0 = distSq nodeDupB 0 0 := by
  refine ⟨?_, by decide, by norm_num [nodeDupB], by norm_num [nodeDupB],
    by norm_num [distSq, nodeDupA, nodeDupB]⟩
  norm_num [mousemoveHit, hitStep, distSq, hitRadius, nodeRadius,
    nodeDupA, nodeDupB, max_def, min_def]

/-- C7 (amended): with a positive zoom, the pointer exactly at the centre of
a visible room makes that room the hover target unless some visible room
earlier in the node list occupies the same world position (no room can be
strictly closer than distance zero; distance ties keep the earlier node);
and when no visible room qualifies as a candidate
(`dist < radius + 8 / zoom`), the hover target is null. -/
theorem c7_hover_amended :
    (∀ (areaVisible : String → Bool) (zoom wx wy : ℚ)
        (l₁ l₂ : List JsNode) (r : JsNode),
        0 < zoom → areaVisible r.area = true →
        (r.x : ℚ) = wx → (r.y : ℚ) = wy →
        (∀ n ∈ l₁, areaVisible n.area = true →
          ¬((n.x : ℚ) = wx ∧ (n.y : ℚ) = wy)) →
        mousemoveHit areaVisible zoom wx wy (l₁ ++ r :: l₂) = some r)
      ∧ (∀ (areaVisible : String → Bool) (zoom wx wy : ℚ) (ns : List JsNode),
          (∀ n ∈ ns, ¬(areaVisible n.area = true
              ∧ distSq n wx wy < hitRadius zoom n ^ 2)) →
          mousemoveHit areaVisible zoom wx wy ns = none) := by
  constructor
  · exact mousemoveHit_first
  · intro vis zoom wx wy ns h
    unfold mousemoveHit
    rw [hitFold_id vis zoom wx wy ns h]

/-- C7 witness: a single visible room, once with the pointer at its centre,
once with the pointer far away from every candidate radius. -/
theorem c7_hover_amended_witness :
    mousemoveHit (fun _ => true) 1 80 40 [nodeSolo] = some nodeSolo
      ∧ mousemoveHit (fun _ => true) 1 5000 5000 [nodeSolo] = none :=
  ⟨c7_hover_amended.1 (fun _ => true) 1 80 40 [] [] nodeSolo (by norm_num) rfl
      (by norm_num [nodeSolo]) (by norm_num [nodeSolo]) (by simp),
    c7_hover_amended.2 (fun _ => true) 1 5000 5000 [nodeSolo] (by
      intro n hn
      rw [List.mem_singleton.mp hn]
      norm_num [distSq, hitRadius, nodeRadius, nodeSolo, max_def, min_def])⟩

/-- C8 counterexample: a door between two visible rooms, no hover, no
active highlight set, with a (blue) cap: the source assigns
`ctx.globalAlpha = 0.5`, not full opacity 1 as the claim states. -/
theorem c8_counterexample :
    edgeAlpha (fun _ => true) ∅ none jsLanding jsParlor jsBlueEdge = 1 / 2
      ∧ ((1 : ℚ) / 2) ≠ 1 := by
  constructor
  · norm_num [edgeAlpha, isHoverEdge, jsLanding, jsParlor, jsBlueEdge]
  · norm_num

/-- C8 (amended): edge opacity in `draw`: 0.5 for a door with both endpoint
areas visible when no highlight set is active (not full opacity); 0.08 when
a highlight set is active and the door touches neither highlighted
endpoint; 0.15 when an endpoint area is hidden; cap-less (`cap === null`)
non-hovered doors get an additional 0.5 multiplier in every case. -/
theorem c8_edge_alpha (areaVisible : String → Bool) (highlightedNodes : Finset ℤ)
    (hoveredNode : Option ℤ) (fromN toN : JsNode) (e : JsEdge) :
    (areaVisible fromN.area = true → areaVisible toN.area = true →
        isHoverEdge hoveredNode e = false →
        ((highlightedNodes = ∅ →
            (e.cap ≠ none →
              edgeAlpha areaVisible highlightedNodes hoveredNode fromN toN e = 1 / 2)
              ∧ (e.cap = none →
                edgeAlpha areaVisible highlightedNodes hoveredNode fromN toN e = 1 / 4))
          ∧ (highlightedNodes.Nonempty →
              e.fromId ∉ highlightedNodes → e.toId ∉ highlightedNodes →
              (e.cap ≠ none →
                edgeAlpha areaVisible highlightedNodes hoveredNode fromN toN e = 2 / 25)
                ∧ (e.cap = none →
                  edgeAlpha areaVisible highlightedNodes hoveredNode fromN toN e = 1 / 25))))
      ∧ ((areaVisible fromN.area = false ∨ areaVisible toN.area = false) →
          isHoverEdge hoveredNode e = false →
          (e.cap ≠ none →
            edgeAlpha areaVisible highlightedNodes hoveredNode fromN toN e = 3 / 20)
            ∧ (e.cap = none →
              edgeAlpha areaVisible highlightedNodes hoveredNode fromN toN e = 3 / 40)) := by
  constructor
  · intro hf ht hh
    constructor
    · intro hemp
      subst hemp
      constructor
      · intro hcap
        rcases Option.ne_none_iff_exists.mp hcap with ⟨c, hc⟩
        norm_num [edgeAlpha, hf, ht, hh, ← hc]
      · intro hcap
        norm_num [edgeAlpha, hf, ht, hh, hcap]
    · intro hnem hfm htm
      have hpos : 0 < highlightedNodes.card := Finset.card_pos.mpr hnem
      have hne0 : highlightedNodes.card ≠ 0 := Nat.pos_iff_ne_zero.mp hpos
      constructor
      · intro hcap
        rcases Option.ne_none_iff_exists.mp hcap with ⟨c, hc⟩
        norm_num [edgeAlpha, hf, ht, hh, hfm, htm, hpos, hne0, ← hc]
      · intro hcap
        norm_num [edgeAlpha, hf, ht, hh, hfm, htm, hpos, hne0, hcap]
  · intro hvis hh
    constructor
    · intro hcap
      rcases Option.ne_none_iff_exists.mp hcap with ⟨c, hc⟩
      rcases hvis with h | h <;> norm_num [edgeAlpha, h, hh, ← hc]
    · intro hcap
      rcases hvis with h | h <;> norm_num [edgeAlpha, h, hh, hcap]

/-- C8 witness: concrete instances of the 0.5 baseline and of the 0.15
hidden-area case with the cap-less multiplier. -/
theorem c8_edge_alpha_witness :
    edgeAlpha (fun _ => true) ∅ none jsLanding jsParlor jsBlueEdge = 1 / 2
      ∧ edgeAlpha (fun _ => false) ∅ none jsLanding jsParlor jsCaplessEdge = 3 / 40 :=
  ⟨(((c8_edge_alpha (fun _ => true) ∅ none jsLanding jsParlor jsBlueEdge).1
        rfl rfl rfl).1 rfl).1 (by decide),
    ((c8_edge_alpha (fun _ => false) ∅ none jsLanding jsParlor jsCaplessEdge).2
        (Or.inl rfl) rfl).2 rfl⟩

end SMGraph
